import Mathlib

/-!
Shallow embedding of the LocNet co-localization pipeline:
src/visualizations/visualize_utils.py, src/visualizations/genome_processor.py
and src/dataloader/get_loader.py, with theorems settling the specification
claims about them.

Modelling conventions:
* Python exceptions are modelled with the Except monad over PyErr.
* numpy frames (2-D heat maps) are lists of rows of exact rationals; a
  matchmap for one example is a list of per-token frames (the shape under
  which coloc_map_processor's docstring reads the data: a list of 2-D
  numpy matrices).
* External collaborators that are not part of the analysed sources
  (cv2.resize, torch tensor-to-image conversion, the matchmap_generate
  kernel from steps.utils, the per-example genome scoring chain from
  genome_utils) are passed in as opaque function parameters, exactly as
  the spec treats them (external interfaces, section 6 of the spec).
-/

namespace LocNet

/-- Python exception values raised by the modelled code paths. -/
inductive PyErr where
  | attributeError (msg : String)
  | valueError (msg : String)
  | typeError (msg : String)
  | indexError (msg : String)
  | keyError (msg : String)
  | assertionError (msg : String)
  | statisticsError (msg : String)
  deriving Repr, DecidableEq

abbrev Token := String

/-- One 2-D co-localization heat map (a numpy matrix), row major, exact rationals. -/
abbrev Frame := List (List ℚ)

/-- Shape predicate: a frame with r rows, each of length c. -/
def FrameShape (f : Frame) (r c : Nat) : Prop :=
  f.length = r ∧ ∀ row ∈ f, row.length = c

instance instFrameShapeDecidable (f : Frame) (r c : Nat) : Decidable (FrameShape f r c) :=
  inferInstanceAs (Decidable (f.length = r ∧ ∀ row ∈ f, row.length = c))

/-- Cell access with numpy-style defaults pushed out of range (used only at in-range indices in the theorems). -/
def entry (f : Frame) (i j : Nat) : ℚ := (f.getD i []).getD j 0

/-- Python list indexing l[i]: IndexError when out of range. -/
def py_get {α : Type} (l : List α) (i : Nat) : Except PyErr α :=
  match l[i]? with
  | some x => Except.ok x
  | none => Except.error (PyErr.indexError "list index out of range")

/-- Python list.index(x): position of the first occurrence, ValueError when absent. -/
def py_list_index : List Token → Token → Except PyErr Nat
  | [], _ => Except.error (PyErr.valueError "value is not in list")
  | t :: rest, x =>
    if t = x then Except.ok 0
    else do
      let k ← py_list_index rest x
      pure (k + 1)

/-- Python del l[0]: drops the head, IndexError on an empty list. -/
def py_del_zero {α : Type} : List α → Except PyErr (List α)
  | [] => Except.error (PyErr.indexError "list assignment index out of range")
  | _ :: rest => Except.ok rest

/-- Python assert statement: AssertionError when the condition fails. -/
def py_assert (c : Prop) [Decidable c] (msg : String) : Except PyErr Unit :=
  if c then Except.ok () else Except.error (PyErr.assertionError msg)

/-- Elementwise sum of two frames (numpy +; frames of equal shape in all uses). -/
def frameAdd (a b : Frame) : Frame :=
  List.zipWith (List.zipWith (· + ·)) a b

/-- Scalar multiple of a frame. -/
def frameSmul (q : ℚ) (a : Frame) : Frame :=
  a.map (fun row => row.map (fun x => q * x))

/-- np.array(frames).mean(axis=0): elementwise sum divided by the count.
On an empty stack numpy degenerates to a NaN scalar without raising; that
degenerate non-frame value is represented by the empty frame. -/
def frameMean : List Frame → Frame
  | [] => []
  | f :: fs => frameSmul ((1 : ℚ) / ((fs.length : ℚ) + 1)) (fs.foldl frameAdd f)

/-- np.mean over all cells of one frame (sum of all entries over their count). -/
def np_mean (f : Frame) : ℚ :=
  ((f.map List.sum).sum) / (((f.map List.length).sum : Nat) : ℚ)

/-- np.where(mask less-than cutoff, 0, 1): cells strictly below the cutoff become 0, the rest 1. -/
def np_where_lt (f : Frame) (cutoff : ℚ) : List (List Nat) :=
  f.map (fun row => row.map (fun x => if x < cutoff then 0 else 1))

/-- statistics.mean: StatisticsError on an empty sequence, else the exact arithmetic mean. -/
def statistics_mean (l : List Int) : Except PyErr ℚ :=
  match l with
  | [] => Except.error (PyErr.statisticsError "mean requires at least one data point")
  | _ => Except.ok (((l.sum : Int) : ℚ) / ((l.length : Nat) : ℚ))

/-- Python 3 expression range(n) + k: range objects support no + operator, so it
raises TypeError before any iteration happens. -/
def py_range_add (n k : Nat) : Except PyErr (List Nat) :=
  Except.error (PyErr.typeError "unsupported operand types for + : range and int")

/-- torch nn.Module collaborator: a pure function from input batch to output batch
(spec section 6, encoder collaborators). -/
structure PyModule (α β : Type) where
  forward : α → β

/-- Modelled from the spec: VGG19 and LSTMBranch (the models package is not among
the analysed sources) are encoder collaborators, pure functions from raw input to
feature tensors (spec section 6). As torch nn.Module objects they expose no size
attribute, so the attribute access model.size in gen_coloc_maps raises
AttributeError. -/
def PyModule.size {α β : Type} (_ : PyModule α β) (_ : Nat) : Except PyErr Nat :=
  Except.error (PyErr.attributeError "VGG19 object has no attribute size")

/-- visualize_utils.gen_coloc_maps: runs both encoders on the batch, then reads
batch_size = image_model.size(0) (the model object, not the output tensor) and
loops i over range(batch_size) collecting matchmap_generate(image_op[i], caption_op[i]).
matchmap_generate comes from steps.utils (not among the analysed sources) and is
passed as an opaque collaborator. -/
def gen_coloc_maps {I C IOp COp M : Type} (matchmap_generate : IOp → COp → M)
    (image_model : PyModule (List I) (List IOp)) (caption_model : PyModule (List C) (List COp))
    (image_tensor : List I) (caption_glove : List C) : Except PyErr (List M) := do
  let image_op := image_model.forward image_tensor
  let caption_op := caption_model.forward caption_glove
  let batch_size ← PyModule.size image_model 0
  (List.range batch_size).foldlM
    (fun coloc_maps i => do
      let iop ← py_get image_op i
      let cop ← py_get caption_op i
      pure (coloc_maps ++ [matchmap_generate iop cop])) ([] : List M)

/-- visualize_utils.coloc_map_processor: resizes every frame (cv2.resize to
224 x 224, an external collaborator passed as resize) and stacks the results;
np.stack raises ValueError on an empty list. -/
def coloc_map_processor (resize : Frame → Frame) (coloc_map : List Frame) :
    Except PyErr (List Frame) :=
  let mask_list := coloc_map.map resize
  match mask_list with
  | [] => Except.error (PyErr.valueError "need at least one array to stack")
  | _ => Except.ok mask_list

/-- Inner loop of visualize_utils.caption_parser: walks one position list and
collects tok_caption[index] and coloc_maps[index] (Python indexing, so an
out-of-range index raises IndexError). -/
def gather (tok_caption : List Token) (coloc_maps : List Frame) :
    List Nat → Except PyErr (List Token × List Frame)
  | [] => Except.ok ([], [])
  | index :: rest => do
    let t ← py_get tok_caption index
    let f ← py_get coloc_maps index
    let pair ← gather tok_caption coloc_maps rest
    pure (t :: pair.1, f :: pair.2)

/-- visualize_utils.caption_parser (name adjusted for this development): for each
position list in index_list, collects the tokens and maps at those positions and
appends the token list and the numpy mean (axis 0) of the collected maps. -/
def caption_parse (tok_caption : List Token) (coloc_maps : List Frame) :
    List (List Nat) → Except PyErr (List (List Token) × List Frame)
  | [] => Except.ok ([], [])
  | position :: rest => do
    let pair ← gather tok_caption coloc_maps position
    let restPair ← caption_parse tok_caption coloc_maps rest
    pure (pair.1 :: restPair.1, frameMean pair.2 :: restPair.2)

/-- Per-example element dictionary built by visualize_utils.fetch_data; the image
payload stays opaque (type parameter). -/
structure CocoElement (I : Type) where
  coloc_map : List Frame
  image : I
  caption : List Token
  name : String
  deriving Repr

/-- visualize_utils.coco_element_processor: start = caption.index of the end word,
del caption[start:], del coloc_map[start:], del caption[0], del coloc_map[0], then
coloc_map_processor and tensor2img (image conversion opaque, no claim touches it). -/
def coco_element_processor {I J : Type} (resize : Frame → Frame) (tensor2img : I → J)
    (element : CocoElement I) : Except PyErr (CocoElement J) := do
  let caption := element.caption
  let coloc_map := element.coloc_map
  let start ← py_list_index caption "<end>"
  let caption := caption.take start
  let coloc_map := coloc_map.take start
  let caption ← py_del_zero caption
  let coloc_map ← py_del_zero coloc_map
  let coloc_map ← coloc_map_processor resize coloc_map
  pure ⟨coloc_map, tensor2img element.image, caption, element.name⟩

/-- visualize_utils.seg_viz: the loop header is for id in range(len(mask_list)) + 1,
a Python 3 TypeError. The body (modelled as the list of binarized masks the loop
would build) resizes mask_list[id] and binarizes it against thresh * np.mean(mask);
plotting is the rendering collaborator and contributes no numeric output. -/
def seg_viz {I : Type} (resize : Frame → Frame) (mask_list : List Frame)
    (caption : List Token) (color_img : I) (thresh : ℚ) :
    Except PyErr (List (List (List Nat))) := do
  let ids ← py_range_add mask_list.length 1
  ids.mapM (fun id => do
    let _cap_phrase ← py_get caption id
    let mask0 ← py_get mask_list id
    let mask := resize mask0
    let mask2 := np_where_lt mask (thresh * np_mean mask)
    pure mask2)

/-- One periodic progress print of GenomeViz.loc_eval: (index, score, running mean). -/
abbrev Report := Nat × Int × ℚ

/-- Loop of GenomeViz.loc_eval over the remaining indices, carrying score_list and
the trace of progress prints. scoreAt is the per-index pipeline (dataset fetch,
unsqueeze, gen_coloc_maps_matchmap or gen_coloc_maps_phrase, fetch_data_genome,
genome_element_processor, int(hit_score_genome)), all from genome_utils which is
not among the analysed sources; modelled from the spec as an opaque per-example
scoring collaborator that may raise. A raised error propagates immediately. -/
def loc_eval_go (scoreAt : Nat → Except PyErr Int) :
    List Nat → List Int → List Report → List Report × Except PyErr (List Int)
  | [], score_list, trace => (trace, Except.ok score_list)
  | index :: rest, score_list, trace =>
    match scoreAt index with
    | Except.error e => (trace, Except.error e)
    | Except.ok score =>
      let score_list2 := score_list ++ [score]
      if index % 100 = 0 then
        match statistics_mean score_list2 with
        | Except.error e => (trace, Except.error e)
        | Except.ok m => loc_eval_go scoreAt rest score_list2 (trace ++ [(index, score, m)])
      else
        loc_eval_go scoreAt rest score_list2 trace

/-- GenomeViz.loc_eval: iterates the per-index scoring pipeline over range(last),
printing index, score and running mean every 100 indices, and finally returns
(score_list, statistics.mean(score_list)). The returned first component is the
trace of progress prints (the only observable reporting the function performs). -/
def loc_eval (scoreAt : Nat → Except PyErr Int) (last : Nat) :
    List Report × Except PyErr (List Int × ℚ) :=
  match loc_eval_go scoreAt (List.range last) [] [] with
  | (trace, Except.error e) => (trace, Except.error e)
  | (trace, Except.ok score_list) =>
    match statistics_mean score_list with
    | Except.error e => (trace, Except.error e)
    | Except.ok m => (trace, Except.ok (score_list, m))

/-- os.path.join on two components: an absolute second component discards the
first; otherwise a single separator is inserted unless the first component is
empty or already ends with one. -/
def os_path_join2 (a b : String) : String :=
  if b.startsWith "/" then b
  else if a = "" then b
  else if a.endsWith "/" then a ++ b
  else a ++ "/" ++ b

/-- os.path.join on a base and further components, folding left. -/
def os_path_join (a : String) (parts : List String) : String :=
  parts.foldl os_path_join2 a

/-- Modelled from the spec: the COCO dataset collaborator
(src/dataloader/coco_loader.py is not among the analysed sources). Per the
external-interface contract it is constructed from these parameters and exposes
them unchanged (get_loader.py reads back dataset.pad_caption and
dataset.batch_size). Field order follows the constructor call in get_loader_coco. -/
structure COCODataset (T : Type) where
  transform : T
  mode : String
  batch_size : Nat
  annotations_file : String
  vocab_glove_file : String
  img_folder : String
  start_word : String
  end_word : String
  unk_word : String
  pad_caption : Bool
  pad_limit : Nat
  deriving Repr, DecidableEq

/-- Modelled from the spec: the Flickr30k dataset collaborator
(src/dataloader/flickr_loader.py is not among the analysed sources); it stores
its constructor parameters, of which get_loader.py reads back pad_caption and
batch_size. -/
structure FlickrDataset (T : Type) where
  transform : T
  mode : String
  batch_size : Nat
  sentences_file : String
  sentences_root : String
  annotations_root : String
  image_root : String
  vocab_glove_file : String
  parse_mode : String
  pad_caption : Bool
  start_word : String
  end_word : String
  unk_word : String
  pad_limit : Nat
  deriving Repr, DecidableEq

/-- Modelled from the spec: the Visual Genome dataset collaborator
(src/dataloader/genome_loader.py is not among the analysed sources); it stores
its constructor parameters, of which get_loader.py reads back pad_caption and
batch_size. Field order follows the constructor call in get_loader_genome. -/
structure VisualGenome (T : Type) where
  transform : T
  mode : String
  batch_size : Nat
  annotations_file : String
  img_folder : String
  vocab_glove_file : String
  start_word : String
  end_word : String
  unk_word : String
  pad_caption : Bool
  pad_limit : Nat
  deriving Repr, DecidableEq

/-- The batching layer chosen by the loader constructors: either the
SubsetRandomSampler + BatchSampler path (length-bucketed; carries the
drop_last flag passed to torch BatchSampler) or the plain shuffling
DataLoader path. -/
inductive LoaderSampler where
  | bucketed (batch_size : Nat) (drop_last : Bool)
  | plain (batch_size : Nat) (shuffle : Bool)
  deriving Repr, DecidableEq

/-- The torch DataLoader configuration a loader constructor returns. -/
structure PyDataLoader (D : Type) where
  dataset : D
  num_workers : Nat
  sampler : LoaderSampler
  deriving Repr, DecidableEq

/-- get_loader.get_loader_coco: asserts the mode, picks image folder and
annotations file per mode (in test mode additionally asserts batch_size == 1),
builds COCODataset with pad_caption=True and pad_limit=20 hardcoded at the call
site, and wires the DataLoader: the bucketed BatchSampler path with
drop_last=False when dataset.pad_caption, otherwise the plain shuffle path. -/
def get_loader_coco {T : Type} (transform : T) (mode : String) (batch_size : Nat)
    (start_word end_word unk_word : String) (num_workers : Nat) (cocoapi_loc : String)
    (vocab_glove_file : String) (test_size : Nat) (pad_caption : Bool) :
    Except PyErr (PyDataLoader (COCODataset T)) :=
  match py_assert (mode = "train" ∨ mode = "val" ∨ mode = "test")
      "mode must be one of train, val or test." with
  | Except.error e => Except.error e
  | Except.ok _ =>
    match (if mode = "test" then
        py_assert (batch_size = 1) "Please change batch_size to 1 if testing your model."
      else Except.ok ()) with
    | Except.error e => Except.error e
    | Except.ok _ =>
      let img_folder :=
        if mode = "train" then os_path_join2 cocoapi_loc "data/mscoco/images/train2014/"
        else if mode = "val" then os_path_join2 cocoapi_loc "data/mscoco/images/val2014/"
        else os_path_join2 cocoapi_loc "data/mscoco/images/test2014/"
      let annotations_file :=
        if mode = "train" then
          os_path_join2 cocoapi_loc "data/mscoco/annotations/captions_train2014.json"
        else if mode = "val" then
          os_path_join2 cocoapi_loc "data/mscoco/annotations/captions_val2014.json"
        else os_path_join2 cocoapi_loc "data/mscoco/annotations/image_info_test2014.json"
      let dataset : COCODataset T :=
        ⟨transform, mode, batch_size, annotations_file, vocab_glove_file, img_folder,
          start_word, end_word, unk_word, true, 20⟩
      if dataset.pad_caption then
        Except.ok ⟨dataset, num_workers, LoaderSampler.bucketed dataset.batch_size false⟩
      else
        Except.ok ⟨dataset, num_workers, LoaderSampler.plain dataset.batch_size true⟩

/-- get_loader.get_loader_flickr: computes the three annotation roots, asserts
the mode, picks per-mode folders, builds FlickrDataset, and wires the DataLoader
exactly as the COCO variant (bucketed with drop_last=False when
dataset.pad_caption, else plain shuffle). -/
def get_loader_flickr {T : Type} (transform : T) (mode : String) (batch_size : Nat)
    (start_word end_word unk_word : String) (num_workers : Nat) (flickr_loc : String)
    (vocab_glove_file : String) (pad_caption : Bool) (pad_limit : Nat)
    (parse_mode : String) : Except PyErr (PyDataLoader (FlickrDataset T)) :=
  let image_root := os_path_join flickr_loc ["data", "flickr_30kentities", "flickr30k-images"]
  let sentences_root :=
    os_path_join flickr_loc ["data", "flickr_30kentities", "annotations_flickr", "Sentences"]
  let annotations_root :=
    os_path_join flickr_loc ["data", "flickr_30kentities", "annotations_flickr", "Annotations"]
  match py_assert (mode = "train" ∨ mode = "val" ∨ mode = "test")
      "mode must be one of train, val or test." with
  | Except.error e => Except.error e
  | Except.ok _ =>
    let img_folder :=
      if mode = "train" then os_path_join flickr_loc [image_root, "train"]
      else if mode = "val" then os_path_join flickr_loc [image_root, "val"]
      else os_path_join flickr_loc [image_root, "test"]
    let annotations_folder :=
      if mode = "train" then os_path_join flickr_loc [annotations_root, "train"]
      else if mode = "val" then os_path_join flickr_loc [annotations_root, "val"]
      else os_path_join flickr_loc [annotations_root, "test"]
    let sentences_folder :=
      if mode = "train" then os_path_join flickr_loc [sentences_root, "train"]
      else if mode = "val" then os_path_join flickr_loc [sentences_root, "val"]
      else os_path_join flickr_loc [sentences_root, "test"]
    let sentences_file := os_path_join2 sentences_folder "data.json"
    let dataset : FlickrDataset T :=
      ⟨transform, mode, batch_size, sentences_file, sentences_folder, annotations_folder,
        img_folder, vocab_glove_file, parse_mode, pad_caption, start_word, end_word,
        unk_word, pad_limit⟩
    if dataset.pad_caption then
      Except.ok ⟨dataset, num_workers, LoaderSampler.bucketed dataset.batch_size false⟩
    else
      Except.ok ⟨dataset, num_workers, LoaderSampler.plain dataset.batch_size true⟩

/-- get_loader.get_loader_genome: computes image root and annotations file from
genome_loc, overwrites the vocab_glove_file parameter with the genome_loc-derived
path, builds VisualGenome with mode hardcoded to train, and wires the DataLoader
(bucketed with drop_last=False when dataset.pad_caption, else plain shuffle).
No assert guards the mode, so the function never raises. -/
def get_loader_genome {T : Type} (transform : T) (mode : String) (batch_size : Nat)
    (start_word end_word unk_word : String) (num_workers : Nat) (genome_loc : String)
    (vocab_glove_file : String) (pad_caption : Bool) (pad_limit : Nat) :
    PyDataLoader (VisualGenome T) :=
  let image_root := os_path_join genome_loc ["data", "visual_genome", "images"]
  let annotations_file := os_path_join genome_loc ["data", "visual_genome", "coco_phrase_data.json"]
  let vocab_glove_file := os_path_join genome_loc ["data", "visual_genome", "vocab_glove.json"]
  let dataset : VisualGenome T :=
    ⟨transform, "train", batch_size, annotations_file, image_root, vocab_glove_file,
      start_word, end_word, unk_word, pad_caption, pad_limit⟩
  if dataset.pad_caption then
    ⟨dataset, num_workers, LoaderSampler.bucketed dataset.batch_size false⟩
  else
    ⟨dataset, num_workers, LoaderSampler.plain dataset.batch_size true⟩

/-- Observation used by the drop_last claim: the drop_last flag of the bucketed
sampler path of a loader result, none when the loader raised or took the plain
path. -/
def bucketed_drop_last {D : Type} : Except PyErr (PyDataLoader D) → Option Bool
  | Except.ok cfg =>
    match cfg.sampler with
    | LoaderSampler.bucketed _ dl => some dl
    | LoaderSampler.plain _ _ => none
  | Except.error _ => none

/-- Same observation for a loader that returns its configuration directly. -/
def bucketed_drop_last_cfg {D : Type} (cfg : PyDataLoader D) : Option Bool :=
  match cfg.sampler with
  | LoaderSampler.bucketed _ dl => some dl
  | LoaderSampler.plain _ _ => none

/-! Helper lemmas about list indexing and frame arithmetic. -/

lemma getElem?_eq_some_getD {α : Type} (d : α) :
    ∀ (l : List α) (i : Nat), i < l.length → l[i]? = some (l.getD i d)
  | [], i, h => absurd h (by simp)
  | x :: xs, 0, _ => by simp [List.getD]
  | x :: xs, i + 1, h => by
    simpa [List.getD] using getElem?_eq_some_getD d xs i (by simpa using h)

lemma py_get_ok {α : Type} (d : α) (l : List α) (i : Nat) (h : i < l.length) :
    py_get l i = Except.ok (l.getD i d) := by
  unfold py_get
  rw [getElem?_eq_some_getD d l i h]

lemma getD_mem {α : Type} (d : α) :
    ∀ (l : List α) (i : Nat), i < l.length → l.getD i d ∈ l
  | [], i, h => absurd h (by simp)
  | x :: xs, 0, _ => by simp [List.getD]
  | x :: xs, i + 1, h => by
    simpa [List.getD] using List.mem_cons_of_mem x (getD_mem d xs i (by simpa using h))

lemma getD_map {α β : Type} (g : α → β) (d : β) (d' : α) :
    ∀ (l : List α) (i : Nat), i < l.length → (l.map g).getD i d = g (l.getD i d')
  | [], i, h => absurd h (by simp)
  | x :: xs, 0, _ => by simp [List.getD]
  | x :: xs, i + 1, h => by
    simpa [List.getD] using getD_map g d d' xs i (by simpa using h)

lemma getD_zipWith {α β γ : Type} (g : α → β → γ) (d₁ : α) (d₂ : β) (d₃ : γ) :
    ∀ (a : List α) (b : List β) (i : Nat), i < a.length → i < b.length →
      (List.zipWith g a b).getD i d₃ = g (a.getD i d₁) (b.getD i d₂)
  | [], _, i, h, _ => absurd h (by simp)
  | _ :: _, [], i, _, h => absurd h (by simp)
  | x :: xs, y :: ys, 0, _, _ => by simp [List.getD]
  | x :: xs, y :: ys, i + 1, h₁, h₂ => by
    simpa [List.getD] using
      getD_zipWith g d₁ d₂ d₃ xs ys i (by simpa using h₁) (by simpa using h₂)

lemma frameAdd_shape {a b : Frame} {r c : Nat}
    (ha : FrameShape a r c) (hb : FrameShape b r c) : FrameShape (frameAdd a b) r c := by
  constructor
  · unfold frameAdd
    rw [List.length_zipWith, ha.1, hb.1, Nat.min_self]
  · intro row hrow
    unfold frameAdd at hrow
    rw [List.mem_iff_getElem] at hrow
    obtain ⟨k, hk, hrow⟩ := hrow
    have hka : k < a.length := by
      rw [List.length_zipWith, ha.1, hb.1, Nat.min_self, ← ha.1] at hk
      exact hk
    have hkb : k < b.length := by
      rw [hb.1, ← ha.1]
      exact hka
    rw [List.getElem_zipWith] at hrow
    subst hrow
    rw [List.length_zipWith, ha.2 _ (List.getElem_mem hka), hb.2 _ (List.getElem_mem hkb),
      Nat.min_self]

lemma entry_frameAdd {a b : Frame} {r c i j : Nat}
    (ha : FrameShape a r c) (hb : FrameShape b r c) (hi : i < r) (hj : j < c) :
    entry (frameAdd a b) i j = entry a i j + entry b i j := by
  have hia : i < a.length := by rw [ha.1]; exact hi
  have hib : i < b.length := by rw [hb.1]; exact hi
  have hja : j < (a.getD i []).length := by
    rw [ha.2 (a.getD i []) (getD_mem [] a i hia)]; exact hj
  have hjb : j < (b.getD i []).length := by
    rw [hb.2 (b.getD i []) (getD_mem [] b i hib)]; exact hj
  unfold entry frameAdd
  rw [getD_zipWith (List.zipWith (· + ·)) [] [] [] a b i hia hib,
    getD_zipWith (· + ·) 0 0 0 _ _ j hja hjb]

lemma foldl_frameAdd_spec : ∀ (fs : List Frame) (acc : Frame) {r c : Nat},
    FrameShape acc r c → (∀ g ∈ fs, FrameShape g r c) →
    FrameShape (fs.foldl frameAdd acc) r c ∧
      ∀ i j, i < r → j < c →
        entry (fs.foldl frameAdd acc) i j
          = entry acc i j + (fs.map (fun g => entry g i j)).sum := by
  intro fs
  induction fs with
  | nil =>
    intro acc r c hacc _
    exact ⟨hacc, fun i j _ _ => by simp⟩
  | cons g gs ih =>
    intro acc r c hacc hfs
    have hg : FrameShape g r c := hfs g (by simp)
    have hacc' : FrameShape (frameAdd acc g) r c := frameAdd_shape hacc hg
    have hrest : ∀ h ∈ gs, FrameShape h r c :=
      fun h hh => hfs h (List.mem_cons_of_mem g hh)
    obtain ⟨hsh, hent⟩ := ih (frameAdd acc g) hacc' hrest
    refine ⟨by simpa using hsh, ?_⟩
    intro i j hi hj
    have := hent i j hi hj
    simp only [List.foldl_cons] at this ⊢
    rw [this, entry_frameAdd hacc hg hi hj]
    simp [List.map_cons, List.sum_cons]
    ring

lemma entry_frameSmul {a : Frame} {r c i j : Nat} (q : ℚ)
    (ha : FrameShape a r c) (hi : i < r) (hj : j < c) :
    entry (frameSmul q a) i j = q * entry a i j := by
  have hia : i < a.length := by rw [ha.1]; exact hi
  have hja : j < (a.getD i []).length := by
    rw [ha.2 (a.getD i []) (getD_mem [] a i hia)]; exact hj
  unfold entry frameSmul
  rw [getD_map _ [] [] a i hia, getD_map _ 0 0 _ j hja]

lemma frameMean_entry : ∀ (frames : List Frame) {r c : Nat}, frames ≠ [] →
    (∀ g ∈ frames, FrameShape g r c) → ∀ i j, i < r → j < c →
    entry (frameMean frames) i j
      = ((frames.map (fun g => entry g i j)).sum) / ((frames.length : Nat) : ℚ) := by
  intro frames r c hne hall i j hi hj
  match frames with
  | [] => exact absurd rfl hne
  | f :: fs =>
    have hf : FrameShape f r c := hall f (by simp)
    have hfs : ∀ g ∈ fs, FrameShape g r c :=
      fun g hg => hall g (List.mem_cons_of_mem f hg)
    obtain ⟨hsh, hent⟩ := foldl_frameAdd_spec fs f hf hfs
    unfold frameMean
    rw [entry_frameSmul _ hsh hi hj, hent i j hi hj, one_div_mul_eq_div,
      List.map_cons, List.sum_cons, List.length_cons]
    norm_cast

lemma gather_eq (tok_caption : List Token) (coloc_maps : List Frame) :
    ∀ (position : List Nat),
      (∀ i ∈ position, i < tok_caption.length ∧ i < coloc_maps.length) →
      gather tok_caption coloc_maps position
        = Except.ok (position.map (fun i => tok_caption.getD i ""),
            position.map (fun i => coloc_maps.getD i []))
  | [], _ => rfl
  | index :: rest, h => by
    have h1 := (h index (by simp)).1
    have h2 := (h index (by simp)).2
    have ih := gather_eq tok_caption coloc_maps rest
      (fun i hi => h i (List.mem_cons_of_mem index hi))
    simp only [gather, py_get_ok "" tok_caption index h1,
      py_get_ok ([] : Frame) coloc_maps index h2, ih, List.map_cons]
    rfl

/-! Lemmas about the loc_eval loop. -/

lemma statistics_mean_append_ok (acc : List Int) (s : Int) :
    ∃ m, statistics_mean (acc ++ [s]) = Except.ok m := by
  cases acc <;> exact ⟨_, rfl⟩

lemma loc_eval_go_ok (scoreAt : Nat → Except PyErr Int) :
    ∀ (l : List Nat), (∀ i ∈ l, ∃ s, scoreAt i = Except.ok s) →
    ∀ (acc : List Int) (tr : List Report), ∃ tr' acc',
      loc_eval_go scoreAt l acc tr = (tr ++ tr', Except.ok acc') ∧
      ∀ p ∈ tr', p.1 ∈ l ∧ p.1 % 100 = 0 := by
  intro l
  induction l with
  | nil =>
    intro _ acc tr
    exact ⟨[], acc, by simp [loc_eval_go], by simp⟩
  | cons i rest ih =>
    intro h acc tr
    obtain ⟨s, hs⟩ := h i (by simp)
    have hrest : ∀ j ∈ rest, ∃ s, scoreAt j = Except.ok s :=
      fun j hj => h j (List.mem_cons_of_mem i hj)
    by_cases hmod : i % 100 = 0
    · obtain ⟨m, hm⟩ := statistics_mean_append_ok acc s
      obtain ⟨tr', acc', heq, hmem⟩ := ih hrest (acc ++ [s]) (tr ++ [(i, s, m)])
      refine ⟨(i, s, m) :: tr', acc', ?_, ?_⟩
      · simp only [loc_eval_go, hs, hmod, if_pos, hm]
        rw [heq]
        simp
      · intro p hp
        rcases List.mem_cons.mp hp with rfl | hp
        · exact ⟨by simp, hmod⟩
        · exact ⟨List.mem_cons_of_mem i (hmem p hp).1, (hmem p hp).2⟩
    · obtain ⟨tr', acc', heq, hmem⟩ := ih hrest (acc ++ [s]) tr
      refine ⟨tr', acc', ?_, ?_⟩
      · simp only [loc_eval_go, hs, hmod, if_neg]
        rw [heq]
        simp
      · exact fun p hp => ⟨List.mem_cons_of_mem i (hmem p hp).1, (hmem p hp).2⟩

lemma loc_eval_go_append (scoreAt : Nat → Except PyErr Int) :
    ∀ (l₁ l₂ : List Nat) (acc : List Int) (tr : List Report),
      loc_eval_go scoreAt (l₁ ++ l₂) acc tr
        = match loc_eval_go scoreAt l₁ acc tr with
          | (tr', Except.error e) => (tr', Except.error e)
          | (tr', Except.ok acc') => loc_eval_go scoreAt l₂ acc' tr' := by
  intro l₁
  induction l₁ with
  | nil => intro l₂ acc tr; simp [loc_eval_go]
  | cons i rest ih =>
    intro l₂ acc tr
    simp only [List.cons_append, loc_eval_go]
    cases scoreAt i with
    | error e => rfl
    | ok s =>
      by_cases hmod : i % 100 = 0
      · simp only [hmod, if_pos]
        cases statistics_mean (acc ++ [s]) with
        | error e => rfl
        | ok m => exact ih l₂ (acc ++ [s]) (tr ++ [(i, s, m)])
      · simp only [hmod, if_neg, ite_false]
        exact ih l₂ (acc ++ [s]) tr

lemma py_list_index_not_mem (x : Token) :
    ∀ (l : List Token), x ∉ l →
      py_list_index l x = Except.error (PyErr.valueError "value is not in list")
  | [], _ => rfl
  | t :: rest, h => by
    have ht : ¬ t = x := fun e => h (by simp [e])
    simp only [py_list_index, if_neg ht,
      py_list_index_not_mem x rest (fun hr => h (List.mem_cons_of_mem t hr))]
    rfl

/-! Claim theorems. -/

/-- Claim C1: the claim states gen_coloc_maps returns one co-localization map per
batch example. The code instead reads batch_size = image_model.size(0) from the
model object (which, as an nn.Module, has no size attribute) rather than from the
encoder output, so every call raises AttributeError and no list is ever returned:
the loop producing the i-th map from the i-th features is unreachable. -/
theorem gen_coloc_maps_raises {I C IOp COp M : Type} (matchmap_generate : IOp → COp → M)
    (image_model : PyModule (List I) (List IOp)) (caption_model : PyModule (List C) (List COp))
    (image_tensor : List I) (caption_glove : List C) :
    gen_coloc_maps matchmap_generate image_model caption_model image_tensor caption_glove
      = Except.error (PyErr.attributeError "VGG19 object has no attribute size") := rfl

/-- Claim C2 counterexample: a caption with no end sentinel makes
coco_element_processor raise ValueError (from caption.index) instead of passing
the pair through with only position 0 removed. -/
theorem coco_clip_no_end_cex :
    coco_element_processor (fun f => f) (fun u : Unit => u)
        ⟨[[[1]], [[2]]], (), ["<start>", "a"], "0"⟩
      = Except.error (PyErr.valueError "value is not in list") := rfl

/-- Claim C2 (amended): for every caption/matchmap pair whose caption contains no
end sentinel, coco_element_processor raises ValueError from caption.index of the
end word; the pair does not pass through. -/
theorem coco_clip_no_end_raises {I J : Type} (resize : Frame → Frame) (tensor2img : I → J)
    (element : CocoElement I) (h : "<end>" ∉ element.caption) :
    coco_element_processor resize tensor2img element
      = Except.error (PyErr.valueError "value is not in list") := by
  unfold coco_element_processor
  dsimp only
  rw [py_list_index_not_mem _ _ h]
  rfl

/-- Claim C2 amended-theorem witness at a concrete sentinel-free caption. -/
theorem coco_clip_no_end_raises_witness :
    ("<end>" ∉ (["<start>", "hi"] : List Token)) ∧
    coco_element_processor (fun f => f) (fun u : Unit => u)
        ⟨[[[1]]], (), ["<start>", "hi"], "w"⟩
      = Except.error (PyErr.valueError "value is not in list") :=
  ⟨by decide, coco_clip_no_end_raises (fun f => f) (fun u : Unit => u)
    ⟨[[[1]]], (), ["<start>", "hi"], "w"⟩ (by decide)⟩

/-- Claim C3: on the caption [start, a, dog, runs, end] with one matchmap slot
per position, coco_element_processor truncates at the first end sentinel
(dropping it and everything after), then drops position 0, yielding caption
[a, dog, runs] and the three maps of slots 1..3 (resized by the collaborator). -/
theorem coco_clip_round_trip {I J : Type} (resize : Frame → Frame) (tensor2img : I → J)
    (img : I) (nm : String) (f0 f1 f2 f3 f4 : Frame) :
    coco_element_processor resize tensor2img
        ⟨[f0, f1, f2, f3, f4], img, ["<start>", "a", "dog", "runs", "<end>"], nm⟩
      = Except.ok ⟨[resize f1, resize f2, resize f3], tensor2img img,
          ["a", "dog", "runs"], nm⟩ := rfl

/-- Claim C4 counterexample: loc_eval over last = 0 does not return a defined
mean: the second component is never an ok value at the concrete pipeline that
scores every index 0. -/
theorem loc_eval_zero_cex :
    ¬ ∃ p, (loc_eval (fun _ => Except.ok 0) 0).2 = Except.ok p := by
  intro hp
  obtain ⟨p, hp⟩ := hp
  have h0 : (loc_eval (fun _ => Except.ok 0) 0).2
      = Except.error (PyErr.statisticsError "mean requires at least one data point") := rfl
  rw [h0] at hp
  exact Except.noConfusion hp

/-- Claim C4 (amended): for every scoring pipeline, loc_eval called with last = 0
runs an empty loop, prints nothing, and raises StatisticsError when computing
statistics.mean of the empty score list; no score list/mean pair is returned. -/
theorem loc_eval_zero_raises (scoreAt : Nat → Except PyErr Int) :
    loc_eval scoreAt 0
      = ([], Except.error (PyErr.statisticsError "mean requires at least one data point")) := rfl

/-- Claim C7: the claim describes the binarization np.where(mask less-than
thresh * np.mean(mask), 0, 1) inside seg_viz. The loop header
for id in range(len(mask_list)) + 1 raises TypeError in Python 3 (range supports
no +), so seg_viz aborts before binarizing a single cell, for every input. -/
theorem seg_viz_raises {I : Type} (resize : Frame → Frame) (mask_list : List Frame)
    (caption : List Token) (color_img : I) (thresh : ℚ) :
    seg_viz resize mask_list caption color_img thresh
      = Except.error (PyErr.typeError "unsupported operand types for + : range and int") := rfl

/-- Claim C10: get_loader_genome ignores the caller's mode and vocab_glove_file:
any two calls differing only in those two arguments build the identical
VisualGenome dataset, whose mode is hardcoded to train and whose vocabulary file
is the genome_loc-derived path. -/
theorem genome_loader_ignores_mode_and_vocab {T : Type} (transform : T)
    (mode₁ mode₂ : String) (batch_size : Nat) (sw ew uw : String) (nw : Nat)
    (genome_loc : String) (vgf₁ vgf₂ : String) (pc : Bool) (pl : Nat) :
    (get_loader_genome transform mode₁ batch_size sw ew uw nw genome_loc vgf₁ pc pl).dataset
        = (get_loader_genome transform mode₂ batch_size sw ew uw nw genome_loc vgf₂ pc pl).dataset
      ∧ (get_loader_genome transform mode₁ batch_size sw ew uw nw genome_loc vgf₁ pc pl).dataset.mode
        = "train"
      ∧ (get_loader_genome transform mode₁ batch_size sw ew uw nw genome_loc vgf₁ pc pl).dataset.vocab_glove_file
        = os_path_join genome_loc ["data", "visual_genome", "vocab_glove.json"] := by
  cases pc <;> exact ⟨rfl, rfl, rfl⟩

/-- Claim C5: for every clipped caption, token map list and phrase-group list
(groups nonempty and in range, maps of a common shape), caption_parser returns,
per group, the phrase caption made of the tokens at the group's positions in
order, and a phrase map whose every cell is the arithmetic mean of the token
maps' cells at those positions. -/
theorem caption_parse_phrase_mean (tok_caption : List Token) (coloc_maps : List Frame)
    (index_list : List (List Nat)) (r c : Nat)
    (hshape : ∀ f ∈ coloc_maps, FrameShape f r c)
    (hpos : ∀ pos ∈ index_list, pos ≠ [] ∧
      ∀ i ∈ pos, i < tok_caption.length ∧ i < coloc_maps.length) :
    ∃ parsed_caption parsed_coloc_maps,
      caption_parse tok_caption coloc_maps index_list
        = Except.ok (parsed_caption, parsed_coloc_maps) ∧
      parsed_caption = index_list.map (fun pos => pos.map (fun i => tok_caption.getD i "")) ∧
      parsed_coloc_maps.length = index_list.length ∧
      ∀ g, g < index_list.length → ∀ i j, i < r → j < c →
        entry (parsed_coloc_maps.getD g []) i j
          = (((index_list.getD g []).map
                (fun t => entry (coloc_maps.getD t []) i j)).sum)
            / ((((index_list.getD g []).length : Nat)) : ℚ) := by
  induction index_list with
  | nil =>
    exact ⟨[], [], rfl, by simp, rfl, fun g hg => absurd hg (by simp)⟩
  | cons pos rest ih =>
    obtain ⟨hne, hin⟩ := hpos pos (by simp)
    have hrest : ∀ q ∈ rest, q ≠ [] ∧
        ∀ i ∈ q, i < tok_caption.length ∧ i < coloc_maps.length :=
      fun q hq => hpos q (List.mem_cons_of_mem pos hq)
    obtain ⟨pc, pm, heq, hcap, hlen, hent⟩ := ih hrest
    have hg := gather_eq tok_caption coloc_maps pos hin
    refine ⟨pos.map (fun i => tok_caption.getD i "") :: pc,
      frameMean (pos.map (fun i => coloc_maps.getD i [])) :: pm, ?_, ?_, ?_, ?_⟩
    · simp only [caption_parse, hg, heq]
      rfl
    · simp [hcap]
    · simp [hlen]
    · intro g hgl i j hi hj
      match g with
      | 0 =>
        have hfs_ne : pos.map (fun i => coloc_maps.getD i []) ≠ [] := by
          simpa using hne
        have hfs_shape : ∀ f ∈ pos.map (fun i => coloc_maps.getD i []), FrameShape f r c := by
          intro f hf
          rw [List.mem_map] at hf
          obtain ⟨t, ht, rfl⟩ := hf
          exact hshape _ (getD_mem [] coloc_maps t (hin t ht).2)
        have := frameMean_entry (pos.map (fun i => coloc_maps.getD i []))
          hfs_ne hfs_shape i j hi hj
        simpa [List.map_map, Function.comp] using this
      | g + 1 =>
        simpa [List.getD_cons_succ] using hent g (by simpa using hgl) i j hi hj

/-- Claim C5 witness: caption [a, b], two 1 x 2 token maps, one group [0, 1];
the phrase caption is [a, b] and every cell of the phrase map is the mean of the
corresponding token-map cells. -/
theorem caption_parse_phrase_mean_witness :
    ∃ parsed_caption parsed_coloc_maps,
      caption_parse ["a", "b"] [[[1, 3]], [[3, 5]]] [[0, 1]]
        = Except.ok (parsed_caption, parsed_coloc_maps) ∧
      parsed_caption
        = ([[0, 1]] : List (List Nat)).map
            (fun pos => pos.map (fun i => (["a", "b"] : List Token).getD i "")) ∧
      parsed_coloc_maps.length = ([[0, 1]] : List (List Nat)).length ∧
      ∀ g, g < ([[0, 1]] : List (List Nat)).length → ∀ i j, i < 1 → j < 2 →
        entry (parsed_coloc_maps.getD g []) i j
          = (((([[0, 1]] : List (List Nat)).getD g []).map
                (fun t => entry (([[[1, 3]], [[3, 5]]] : List Frame).getD t []) i j)).sum)
            / ((((([[0, 1]] : List (List Nat)).getD g []).length : Nat)) : ℚ) :=
  caption_parse_phrase_mean ["a", "b"] [[[1, 3]], [[3, 5]]] [[0, 1]] 1 2
    (by decide) (by decide)

/-- Claim C6: for every phrase-group list with in-range positions (overlap
allowed), caption_parser yields exactly one phrase caption and one phrase map
per group: both output lengths equal the number of groups. -/
theorem caption_parse_group_count (tok_caption : List Token) (coloc_maps : List Frame)
    (index_list : List (List Nat))
    (h : ∀ pos ∈ index_list, ∀ i ∈ pos, i < tok_caption.length ∧ i < coloc_maps.length) :
    ∃ parsed_caption parsed_coloc_maps,
      caption_parse tok_caption coloc_maps index_list
        = Except.ok (parsed_caption, parsed_coloc_maps) ∧
      parsed_caption.length = index_list.length ∧
      parsed_coloc_maps.length = index_list.length := by
  induction index_list with
  | nil => exact ⟨[], [], rfl, rfl, rfl⟩
  | cons pos rest ih =>
    obtain ⟨pc, pm, heq, h1, h2⟩ := ih (fun q hq => h q (List.mem_cons_of_mem pos hq))
    have hg := gather_eq tok_caption coloc_maps pos (h pos (by simp))
    refine ⟨pos.map (fun i => tok_caption.getD i "") :: pc,
      frameMean (pos.map (fun i => coloc_maps.getD i [])) :: pm, ?_, by simp [h1],
      by simp [h2]⟩
    simp only [caption_parse, hg, heq]
    rfl

/-- Claim C6 witness: overlapping groups [0, 1], [1, 0], [1] over a two-token
caption produce exactly three phrase captions and three phrase maps. -/
theorem caption_parse_group_count_witness :
    ∃ parsed_caption parsed_coloc_maps,
      caption_parse ["a", "b"] [[[1]], [[2]]] [[0, 1], [1, 0], [1]]
        = Except.ok (parsed_caption, parsed_coloc_maps) ∧
      parsed_caption.length = ([[0, 1], [1, 0], [1]] : List (List Nat)).length ∧
      parsed_coloc_maps.length = ([[0, 1], [1, 0], [1]] : List (List Nat)).length :=
  caption_parse_group_count ["a", "b"] [[[1]], [[2]]] [[0, 1], [1, 0], [1]] (by decide)

/-- Claim C8 counterexample: with a pipeline that scores indices 0 and 1 and
raises on index 2, loc_eval aborts; its entire observable output is the single
periodic progress print from index 0 plus the propagated error, and no component
of any printed report equals 2, the count of examples scored before the failure. -/
theorem loc_eval_abort_cex :
    loc_eval (fun i => if i < 2 then Except.ok 1 else Except.error (PyErr.valueError "no region")) 3
      = ([(0, 1, 1)], Except.error (PyErr.valueError "no region")) ∧
    ∀ p ∈ ([(0, 1, 1)] : List Report), p.1 ≠ 2 ∧ p.2.1 ≠ 2 ∧ p.2.2 ≠ 2 := by
  constructor
  · have h3 : List.range 3 = [0, 1, 2] := rfl
    unfold loc_eval
    rw [h3]
    simp only [loc_eval_go, statistics_mean]
    norm_num
  · intro p hp
    rw [List.mem_singleton] at hp
    subst hp
    refine ⟨by norm_num, by norm_num, by norm_num⟩

/-- Claim C8 (amended): when the per-example pipeline raises at index k after
succeeding on all earlier indices, loc_eval aborts with the propagated error: no
score list is returned and nothing beyond the periodic progress prints of
indices before k (multiples of 100) is reported; in particular no count of the
examples scored before the failure. -/
theorem loc_eval_abort (scoreAt : Nat → Except PyErr Int) (last k : Nat) (e : PyErr)
    (hk : k < last) (he : scoreAt k = Except.error e)
    (hok : ∀ j, j < k → ∃ s, scoreAt j = Except.ok s) :
    ∃ tr, loc_eval scoreAt last = (tr, Except.error e) ∧
      ∀ p ∈ tr, p.1 < k ∧ p.1 % 100 = 0 := by
  obtain ⟨tr', acc', hgo, hmem⟩ := loc_eval_go_ok scoreAt (List.range k)
    (fun i hi => hok i (List.mem_range.mp hi)) [] []
  rw [List.nil_append] at hgo
  have hsplit : List.range last
      = (List.range k ++ [k]) ++ (List.range (last - (k + 1))).map (fun x => (k + 1) + x) := by
    rw [← List.range_succ, ← List.range_add]
    congr 1
    omega
  refine ⟨tr', ?_, ?_⟩
  · unfold loc_eval
    rw [hsplit, loc_eval_go_append, loc_eval_go_append, hgo]
    simp [loc_eval_go, he]
  · intro p hp
    exact ⟨List.mem_range.mp (hmem p hp).1, (hmem p hp).2⟩

/-- Claim C8 amended-theorem witness: failure at index 1 after a success at
index 0 aborts the run with only the index-0 progress print reported. -/
theorem loc_eval_abort_witness :
    ∃ tr, loc_eval (fun i => if i = 1 then Except.error (PyErr.valueError "no region") else Except.ok 0) 3
        = (tr, Except.error (PyErr.valueError "no region")) ∧
      ∀ p ∈ tr, p.1 < 1 ∧ p.1 % 100 = 0 :=
  loc_eval_abort _ 3 1 _ (by decide) rfl
    (fun j hj => ⟨0, by
      have hj0 : j = 0 := by omega
      subst hj0
      rfl⟩)

/-- Claim C9: every loader constructor that takes the length-bucketed
BatchSampler path passes drop_last = False to it: whenever the returned
configuration uses the bucketed sampler its drop_last flag is false (stated via
Option.getD so the plain path and raised asserts contribute nothing), and at
concrete default-style arguments each of the three loaders does take the
bucketed path with drop_last = false. -/
theorem loaders_drop_last_false :
    (∀ (T : Type) (transform : T) (mode : String) (batch_size : Nat)
        (sw ew uw : String) (nw : Nat) (loc vgf : String) (ts : Nat) (pc : Bool),
      (bucketed_drop_last
        (get_loader_coco transform mode batch_size sw ew uw nw loc vgf ts pc)).getD false
        = false) ∧
    (∀ (T : Type) (transform : T) (mode : String) (batch_size : Nat)
        (sw ew uw : String) (nw : Nat) (loc vgf : String) (pc : Bool) (pl : Nat)
        (pm : String),
      (bucketed_drop_last
        (get_loader_flickr transform mode batch_size sw ew uw nw loc vgf pc pl pm)).getD false
        = false) ∧
    (∀ (T : Type) (transform : T) (mode : String) (batch_size : Nat)
        (sw ew uw : String) (nw : Nat) (loc vgf : String) (pc : Bool) (pl : Nat),
      (bucketed_drop_last_cfg
        (get_loader_genome transform mode batch_size sw ew uw nw loc vgf pc pl)).getD false
        = false) ∧
    bucketed_drop_last
      (get_loader_coco () "train" 4 "<start>" "<end>" "<unk>" 4 ""
        "data/mscoco/vocab_glove.json" 1000 true) = some false ∧
    bucketed_drop_last
      (get_loader_flickr () "train" 4 "<start>" "<end>" "<unk>" 1 ""
        "data/flickr_30kentities/vocab_glove_flickr.json" true 20 "phrase") = some false ∧
    bucketed_drop_last_cfg
      (get_loader_genome () "train" 1 "<start>" "<end>" "<unk>" 1 ""
        "data/visual_genome/vocab_glove.json" true 20) = some false := by
  refine ⟨?_, ?_, ?_, rfl, rfl, rfl⟩
  · intro T transform mode batch_size sw ew uw nw loc vgf ts pc
    unfold get_loader_coco py_assert
    by_cases h1 : (mode = "train" ∨ mode = "val" ∨ mode = "test")
    · rw [if_pos h1]
      by_cases h2 : mode = "test"
      · rw [if_pos h2]
        by_cases h3 : batch_size = 1
        · rw [if_pos h3]; rfl
        · rw [if_neg h3]; rfl
      · rw [if_neg h2]; rfl
    · rw [if_neg h1]; rfl
  · intro T transform mode batch_size sw ew uw nw loc vgf pc pl pm
    unfold get_loader_flickr py_assert
    by_cases h1 : (mode = "train" ∨ mode = "val" ∨ mode = "test")
    · rw [if_pos h1]
      cases pc <;> rfl
    · rw [if_neg h1]; rfl
  · intro T transform mode batch_size sw ew uw nw loc vgf pc pl
    unfold get_loader_genome
    cases pc <;> rfl

end LocNet
